import Mathlib

/-!
Verification development for the bulk file-delivery repository
(`file_delivery_script.py`, `email_sender.py`, `config_setup.py`).

The Python source is shallowly embedded: file contents become lists of
lines, the SMTP transport becomes an oracle (`Transport`) deciding the
outcome of each external call, and every externally visible transport
operation is recorded in an explicit event trace so that temporal claims
(session opened / closed, attachment read, recipients attempted) become
statements about that trace.
-/

namespace FileDelivery

/-- Python truthiness of an optional string (`None` and `""` are falsy,
mirroring `if not self.sender_email` in `FileDeliveryService.send_file`). -/
def truthy : Option String → Bool
  | none => false
  | some s => s ≠ ""

/-- The ASCII whitespace removed by Python's `str.strip()` (the sources
only ever strip ASCII text). -/
def pyIsSpace (c : Char) : Bool :=
  c = ' ' || c = '\t' || c = '\n' || c = '\r' || c = '\x0b' || c = '\x0c'

/-- Python `line.strip()`: drop leading and trailing whitespace. -/
def pyStrip (s : String) : String :=
  String.mk (((s.toList.dropWhile pyIsSpace).reverse.dropWhile pyIsSpace).reverse)

/-- Python `'@' in s`. -/
def pyContainsAt (s : String) : Bool :=
  s.toList.contains '@'

/-- Python `s.startswith('#')`. -/
def pyStartsWithHash (s : String) : Bool :=
  match s.toList with
  | [] => false
  | c :: _ => c = '#'

/-- Validity test applied by `FileDeliveryService.load_delivery_list` to a
stripped line: non-empty, not a `#` comment, and containing an `@`. -/
def fdLineValid (e : String) : Bool :=
  e ≠ "" && !(pyStartsWithHash e) && pyContainsAt e

/-- Embedding of `FileDeliveryService.load_delivery_list`
(`src/file_delivery_script.py` lines 75-87): iterate over the lines of the
delivery-list file, strip each, skip blanks and `#` comments, keep lines
containing `@` (invalid lines only produce a warning), and return the kept
lines in order.  The Python loop appends to an accumulator, hence the
`foldl`. -/
def load_delivery_list (lines : List String) : List String :=
  lines.foldl
    (fun emails line =>
      let email := pyStrip line
      if fdLineValid email then emails ++ [email] else emails)
    []

/-- The body of `load_delivery_list` contains no `raise` reachable for an
in-memory source: its `except` clauses only re-raise I/O failures of
`open`, which are outside the embedding.  The `Except` result records
that, in particular, an empty result is returned normally, not raised. -/
def load_delivery_list_run (lines : List String) : Except String (List String) :=
  Except.ok (load_delivery_list lines)

/-- Validity test of `load_recipients` in `src/email_sender.py` line 93:
the raw line must strip to something non-empty and contain an `@`
(comments are NOT skipped there). -/
def esLineValid (line : String) : Bool :=
  pyStrip line ≠ "" && pyContainsAt line

/-- Embedding of `load_recipients` (`src/email_sender.py` lines 91-99):
a list comprehension keeping the stripped form of every line that strips
non-empty and contains `@`; raises `ValueError` when nothing is kept. -/
def load_recipients (lines : List String) : Except String (List String) :=
  let recipients := (lines.filter esLineValid).map pyStrip
  if recipients = [] then
    Except.error "No valid email addresses found in recipients file"
  else
    Except.ok recipients

/-- Modelled from the spec: "number of distinct ... addresses ... order of
first occurrence preserved".  Deduplication keeping the first occurrence,
used only to state the spec side of claim C1; the source code has no
deduplication step. -/
def dedupKeepFirst (l : List String) : List String :=
  l.foldl (fun acc a => if a ∈ acc then acc else acc ++ [a]) []

/-- Credential state of a `FileDeliveryService` instance: `sender_email`
and `sender_password` are `None` after `__init__` and strings after
`configure_email`. -/
structure Config where
  sender_email : Option String
  sender_password : Option String

/-- Externally visible operations of a delivery run, in order of
occurrence.  `readSource` is the read of the delivery-list file by `main`,
`connect` is the successful or attempted SMTP handshake
(`smtplib.SMTP` + `starttls` + `login`), `attempt r` marks the loop body
of `send_file` being entered for recipient `r`, `fileRead r` the
attachment file being opened, read and base64-encoded inside
`create_email_message` for `r`, `sendmail r` the `server.sendmail` call,
and `quit` the `server.quit()` call that closes the session. -/
inductive Event where
  | readSource : Event
  | connect : Event
  | attempt : String → Event
  | fileRead : String → Event
  | sendmail : String → Event
  | quit : Event
deriving DecidableEq

/-- Oracle deciding the outcome of each external SMTP / filesystem call
made by `send_file`: whether the handshake succeeds, whether building the
message for the i-th recipient raises (attachment open failure inside
`create_email_message`), whether `sendmail` for the i-th recipient
raises, and whether `server.quit()` raises. -/
structure Transport where
  openOk : Bool
  composeErr : Nat → Option String
  sendErr : Nat → Option String
  quitOk : Bool

/-- Errors `send_file` can raise: the explicit `ValueError` for missing
credentials, or a propagated SMTP exception. -/
inductive SendError where
  | valueError : String → SendError
  | smtpError : String → SendError
deriving DecidableEq

/-- The `results` dictionary built by `send_file`. -/
structure SendResults where
  successful : List String
  failed : List (String × String)
  total : Nat
deriving DecidableEq

/-- The per-recipient loop of `send_file`
(`src/file_delivery_script.py` lines 208-220): for each recipient, the
inner `try` builds the message and sends it; any exception from either
step is caught and recorded in `failed`, otherwise the recipient is
appended to `successful`.  Returns (events, successful, failed) with
lists in iteration order. -/
def sendLoop (t : Transport) : Nat → List String →
    List Event × List String × List (String × String)
  | _, [] => ([], [], [])
  | i, r :: rest =>
    let tail := sendLoop t (i + 1) rest
    match t.composeErr i with
    | some e => (Event.attempt r :: tail.1, tail.2.1, (r, e) :: tail.2.2)
    | none =>
      match t.sendErr i with
      | some e =>
          (Event.attempt r :: Event.fileRead r :: Event.sendmail r :: tail.1,
            tail.2.1, (r, e) :: tail.2.2)
      | none =>
          (Event.attempt r :: Event.fileRead r :: Event.sendmail r :: tail.1,
            r :: tail.2.1, tail.2.2)

/-- Embedding of `FileDeliveryService.send_file`
(`src/file_delivery_script.py` lines 178-228).  The `results` dictionary
is initialised with `total = len(delivery_list)`; missing credentials
raise `ValueError` before any transport call; a handshake failure
propagates out of the outer `try` (re-raised after logging); otherwise
the loop runs over every recipient and `server.quit()` is called once
after it; a `quit` failure propagates, losing the report. -/
def send_file (cfg : Config) (t : Transport) (delivery_list : List String) :
    List Event × Except SendError SendResults :=
  if !(truthy cfg.sender_email && truthy cfg.sender_password) then
    ([], Except.error (SendError.valueError
      "Email credentials not configured. Use configure_email() method."))
  else if !t.openOk then
    ([Event.connect], Except.error (SendError.smtpError "SMTP connection error"))
  else
    let L := sendLoop t 0 delivery_list
    (Event.connect :: L.1 ++ [Event.quit],
      if t.quitOk then
        Except.ok { successful := L.2.1, failed := L.2.2, total := delivery_list.length }
      else Except.error (SendError.smtpError "SMTP connection error"))

/-- The recipients attempted during a run, read off the event trace in
order. -/
def attempts (evs : List Event) : List String :=
  evs.filterMap fun e =>
    match e with
    | Event.attempt r => some r
    | _ => none

/-- Whether an event is an attachment read/encode
(`open(file_path, 'rb')` + `encode_base64` inside
`create_email_message`). -/
def isFileRead : Event → Bool
  | Event.fileRead _ => true
  | _ => false

/-- Environment of one invocation of `main` in
`src/file_delivery_script.py`: the result of `validate_file` on the
`--file` argument (pure I/O, outside the embedding), the lines of the
delivery-list file, the configured credentials, and the transport
oracle. -/
structure Env where
  fileValid : Bool
  sourceLines : List String
  cfg : Config
  transport : Transport

/-- Embedding of `main` in `src/file_delivery_script.py` (lines 306-363):
validate the file (exit 1 on failure, before reading the recipient
source), load the delivery list (exit 1 when empty), run `send_file`
(any exception is caught by the outer handler and exits 1), and exit 0
exactly when `results['failed']` is empty.  Returns the event trace, the
exit code, and the report when one was produced. -/
def fdMain (env : Env) : List Event × Nat × Option SendResults :=
  if env.fileValid = false then ([], 1, none)
  else
    let delivery_list := load_delivery_list env.sourceLines
    if delivery_list = [] then ([Event.readSource], 1, none)
    else
      match send_file env.cfg env.transport delivery_list with
      | (evs, Except.ok res) =>
          (Event.readSource :: evs, (if res.failed = [] then 0 else 1), some res)
      | (evs, Except.error _) => (Event.readSource :: evs, 1, none)

/-- Result of Python's `str.format` as modelled here: the formatted
value, a raised `KeyError` (unknown keyword argument), a raised
`ValueError` (stray brace or malformed conversion syntax), or
`unmodeled`: a replacement-field construct this embedding deliberately
does not assert anything about (a conversion or format spec applied to
the resolved value, attribute/index access on it, a nested field inside
a format spec, or a positional/auto-numbered field); CPython may format
those successfully or raise other errors, and no theorem here concerns
them. -/
inductive FmtResult (α : Type) where
  | ok : α → FmtResult α
  | keyError : String → FmtResult α
  | valueError : FmtResult α
  | unmodeled : FmtResult α
deriving DecidableEq

/-- Functorial action on the `ok` branch. -/
def FmtResult.map {α β : Type} (f : α → β) : FmtResult α → FmtResult β
  | FmtResult.ok a => FmtResult.ok (f a)
  | FmtResult.keyError k => FmtResult.keyError k
  | FmtResult.valueError => FmtResult.valueError
  | FmtResult.unmodeled => FmtResult.unmodeled

/-- Outcome of the loop body of `main` in `src/email_sender.py` for one
recipient: every file attached and the send succeeded (`sent`), an
attachment failed (`attachFailed`, counted as a failed send), or
`send_email` returned `False` (`sendFailed`). -/
inductive ESOutcome where
  | sent : ESOutcome
  | attachFailed : ESOutcome
  | sendFailed : ESOutcome
deriving DecidableEq

/-- Environment of one invocation of `main` in `src/email_sender.py`:
the `validate_config()` result, the lines of `recipients.txt`, whether
the files folder exists, the files found in it, and the per-recipient
outcome oracle. -/
structure ESEnv where
  configValid : Bool
  recipientLines : List String
  folderExists : Bool
  files : List String
  outcome : Nat → ESOutcome

/-- The recipient loop of `main` in `src/email_sender.py`
(lines 279-315), counting `successful_sends` and `failed_sends`. -/
def esLoop (env : ESEnv) : Nat → List String → Nat × Nat
  | _, [] => (0, 0)
  | i, _ :: rest =>
    let tail := esLoop env (i + 1) rest
    match env.outcome i with
    | ESOutcome.sent => (tail.1 + 1, tail.2)
    | _ => (tail.1, tail.2 + 1)

/-- Embedding of `main` in `src/email_sender.py` (lines 253-332) together
with the `sys.exit(0 if success else 1)` at module level: returns 1 when
configuration validation fails, when `load_recipients` raises, when the
files folder is missing (the raised `FileNotFoundError` is caught by the
outer handler) or empty; otherwise runs the loop and returns 0 exactly
when `successful_sends > 0`. -/
def esMain (env : ESEnv) : Nat :=
  if env.configValid = false then 1
  else
    match load_recipients env.recipientLines with
    | Except.error _ => 1
    | Except.ok recipients =>
      if env.folderExists = false then 1
      else if env.files = [] then 1
      else
        let counts := esLoop env 0 recipients
        if 0 < counts.1 then 0 else 1

/-! ### Helper lemmas about the send loop -/

theorem sendLoop_lengths (t : Transport) (i : Nat) (l : List String) :
    (sendLoop t i l).2.1.length + (sendLoop t i l).2.2.length = l.length := by
  induction l generalizing i with
  | nil => simp [sendLoop]
  | cons r rest ih =>
    cases hc : t.composeErr i with
    | some e => have := ih (i + 1); simp [sendLoop, hc]; omega
    | none =>
      cases hs : t.sendErr i with
      | some e => have := ih (i + 1); simp [sendLoop, hc, hs]; omega
      | none => have := ih (i + 1); simp [sendLoop, hc, hs]; omega

theorem sendLoop_attempts (t : Transport) (i : Nat) (l : List String) :
    attempts (sendLoop t i l).1 = l := by
  induction l generalizing i with
  | nil => simp [sendLoop, attempts]
  | cons r rest ih =>
    cases hc : t.composeErr i with
    | some e => simpa [sendLoop, hc, attempts] using ih (i + 1)
    | none =>
      cases hs : t.sendErr i with
      | some e => simpa [sendLoop, hc, hs, attempts] using ih (i + 1)
      | none => simpa [sendLoop, hc, hs, attempts] using ih (i + 1)

theorem sendLoop_no_quit (t : Transport) (i : Nat) (l : List String) :
    (sendLoop t i l).1.count Event.quit = 0 := by
  induction l generalizing i with
  | nil => simp [sendLoop]
  | cons r rest ih =>
    cases hc : t.composeErr i with
    | some e => simpa [sendLoop, hc] using ih (i + 1)
    | none =>
      cases hs : t.sendErr i with
      | some e => simpa [sendLoop, hc, hs] using ih (i + 1)
      | none => simpa [sendLoop, hc, hs] using ih (i + 1)

theorem sendLoop_failed_mem (t : Transport) (l : List String) (i k : Nat)
    (hk : k < l.length) (hf : t.composeErr (i + k) ≠ none ∨ t.sendErr (i + k) ≠ none) :
    ∃ e, (l.get ⟨k, hk⟩, e) ∈ (sendLoop t i l).2.2 := by
  induction l generalizing i k with
  | nil => simp at hk
  | cons r rest ih =>
    cases k with
    | zero =>
      cases hc : t.composeErr i with
      | some e => exact ⟨e, by simp [sendLoop, hc]⟩
      | none =>
        cases hs : t.sendErr i with
        | some e => exact ⟨e, by simp [sendLoop, hc, hs]⟩
        | none =>
          exfalso
          rcases hf with hf | hf
          · exact hf (by simpa using hc)
          · exact hf (by simpa using hs)
    | succ k =>
      have hk2 : k < rest.length := Nat.lt_of_succ_lt_succ hk
      have hf2 : t.composeErr (i + 1 + k) ≠ none ∨ t.sendErr (i + 1 + k) ≠ none := by
        have harith : i + 1 + k = i + (k + 1) := by omega
        rw [harith]; exact hf
      obtain ⟨e, he⟩ := ih (i + 1) k hk2 hf2
      refine ⟨e, ?_⟩
      cases hc : t.composeErr i with
      | some e2 => simp [sendLoop, hc]; right; simpa using he
      | none =>
        cases hs : t.sendErr i with
        | some e2 => simp [sendLoop, hc, hs]; right; simpa using he
        | none => simpa [sendLoop, hc, hs] using he

theorem sendLoop_fileReads (t : Transport) (i : Nat) (l : List String)
    (hcomp : ∀ k, k < l.length → t.composeErr (i + k) = none) :
    (sendLoop t i l).1.countP isFileRead = l.length := by
  induction l generalizing i with
  | nil => simp [sendLoop]
  | cons r rest ih =>
    have hc : t.composeErr i = none := by simpa using hcomp 0 (by simp)
    have hrest : ∀ k, k < rest.length → t.composeErr (i + 1 + k) = none := by
      intro k hk
      have harith : i + 1 + k = i + (k + 1) := by omega
      rw [harith]
      exact hcomp (k + 1) (by simpa using Nat.succ_lt_succ hk)
    cases hs : t.sendErr i with
    | some e => simpa [sendLoop, hc, hs, isFileRead] using ih (i + 1) hrest
    | none => simpa [sendLoop, hc, hs, isFileRead] using ih (i + 1) hrest

/-! ### Claim theorems -/

/-- Claim C2 (confirmed): for every delivery list and every pattern of
per-recipient successes and failures, a report returned by `send_file`
satisfies `len(successful) + len(failed) = total`, where `total` is the
number of recipients attempted. -/
theorem C2_report_invariant (cfg : Config) (t : Transport) (list : List String)
    (evs : List Event) (res : SendResults)
    (h : send_file cfg t list = (evs, Except.ok res)) :
    res.successful.length + res.failed.length = res.total := by
  unfold send_file at h
  split at h
  · simp at h
  · split at h
    · simp at h
    · split at h
      · have h2 := congrArg Prod.snd h
        simp only at h2
        obtain ⟨hs, hf, ht⟩ := SendResults.mk.injEq _ _ _ _ _ _ ▸ Except.ok.inj h2
        rw [← hs, ← hf, ← ht]
        exact sendLoop_lengths t 0 list
      · simp at h

/-- Witness for C2: a two-recipient run where the second send fails. -/
theorem C2_report_invariant_witness :
    (SendResults.mk ["r1@x.com"] [("r2@x.com", "boom")] 2).successful.length +
      (SendResults.mk ["r1@x.com"] [("r2@x.com", "boom")] 2).failed.length =
      (SendResults.mk ["r1@x.com"] [("r2@x.com", "boom")] 2).total :=
  C2_report_invariant ⟨some "s@x.com", some "pw"⟩
    ⟨true, fun _ => none, fun i => if i = 1 then some "boom" else none, true⟩
    ["r1@x.com", "r2@x.com"] _ _ rfl

/-- Claim C6 (confirmed): when file validation fails, `main` of
`file_delivery_script.py` exits with code 1 before reading the recipient
source and performs no transport operation at all (empty event trace). -/
theorem C6_no_session_on_invalid_file (env : Env) (h : env.fileValid = false) :
    fdMain env = ([], 1, none) := by
  simp [fdMain, h]

/-- Witness for C6: a run whose file validation failed. -/
theorem C6_no_session_on_invalid_file_witness :
    fdMain ⟨false, ["a@x.com"], ⟨some "s@x.com", some "pw"⟩,
      ⟨true, fun _ => none, fun _ => none, true⟩⟩ = ([], 1, none) :=
  C6_no_session_on_invalid_file _ rfl

/-- Claim C10 (confirmed): when `sender_email` or `sender_password` is
unset (`None` or empty), `send_file` raises `ValueError` with an empty
event trace: no session is opened, no transport operation happens, and no
report is produced. -/
theorem C10_credentials_checked_first (cfg : Config) (t : Transport) (list : List String)
    (h : truthy cfg.sender_email = false ∨ truthy cfg.sender_password = false) :
    send_file cfg t list =
      ([], Except.error (SendError.valueError
        "Email credentials not configured. Use configure_email() method.")) := by
  unfold send_file
  rcases h with h | h <;> simp [h]

/-- Witness for C10: credentials left at their `__init__` value `None`. -/
theorem C10_credentials_checked_first_witness :
    send_file ⟨none, none⟩ ⟨true, fun _ => none, fun _ => none, true⟩ ["r@x.com"] =
      ([], Except.error (SendError.valueError
        "Email credentials not configured. Use configure_email() method.")) :=
  C10_credentials_checked_first ⟨none, none⟩ _ _ (Or.inl rfl)

/-- Claim C3 (confirmed): whatever the pattern of per-recipient failures
chosen by the transport oracle, every recipient of the delivery list is
attempted, in list order (the attempt trace equals the list), and every
recipient whose compose or send step failed is recorded in the report's
`failed` list rather than aborting the batch. -/
theorem C3_partial_failure_tolerance (cfg : Config) (t : Transport) (list : List String)
    (evs : List Event) (res : SendResults)
    (h : send_file cfg t list = (evs, Except.ok res)) :
    attempts evs = list ∧
    ∀ k : Nat, ∀ hk : k < list.length,
      (t.composeErr k ≠ none ∨ t.sendErr k ≠ none) →
      ∃ e, (list.get ⟨k, hk⟩, e) ∈ res.failed := by
  unfold send_file at h
  split at h
  · simp at h
  · split at h
    · simp at h
    · split at h
      · have h1 := congrArg Prod.fst h
        have h2 := congrArg Prod.snd h
        simp only at h1 h2
        constructor
        · rw [← h1]
          show attempts (Event.connect :: (sendLoop t 0 list).1 ++ [Event.quit]) = list
          simp [attempts, List.filterMap_append]
          simpa [attempts] using sendLoop_attempts t 0 list
        · intro k hk hf
          have hres := Except.ok.inj h2
          have hfail : res.failed = (sendLoop t 0 list).2.2 := by rw [← hres]
          rw [hfail]
          exact sendLoop_failed_mem t list 0 k hk (by simpa using hf)
      · simp at h

/-- Witness for C3: three recipients, the middle send fails, all three
are attempted and the failure is recorded. -/
theorem C3_partial_failure_tolerance_witness :
    attempts (send_file ⟨some "s@x.com", some "pw"⟩
        ⟨true, fun _ => none, fun i => if i = 1 then some "boom" else none, true⟩
        ["r1@x.com", "r2@x.com", "r3@x.com"]).1 = ["r1@x.com", "r2@x.com", "r3@x.com"] ∧
      ∃ e, ((["r1@x.com", "r2@x.com", "r3@x.com"] : List String).get ⟨1, by decide⟩, e) ∈
        (SendResults.mk ["r1@x.com", "r3@x.com"] [("r2@x.com", "boom")] 3).failed := by
  have h := C3_partial_failure_tolerance ⟨some "s@x.com", some "pw"⟩
    ⟨true, fun _ => none, fun i => if i = 1 then some "boom" else none, true⟩
    ["r1@x.com", "r2@x.com", "r3@x.com"] _ _ rfl
  exact ⟨h.1, h.2 1 (by decide) (Or.inr (by decide))⟩

/-- Claim C4 (confirmed): in every run of `send_file` in which the
transport session is successfully opened (credentials configured and
handshake succeeded), the event trace contains exactly one `quit`, and it
is the last event of the run — the session is closed exactly once before
the run returns, however many per-recipient sends failed. -/
theorem C4_session_closed_once (cfg : Config) (t : Transport) (list : List String)
    (evs : List Event) (r : Except SendError SendResults)
    (hcred : (truthy cfg.sender_email && truthy cfg.sender_password) = true)
    (hopen : t.openOk = true)
    (h : send_file cfg t list = (evs, r)) :
    evs.count Event.quit = 1 ∧ evs.getLast? = some Event.quit := by
  unfold send_file at h
  rw [hcred, hopen] at h
  simp only [Bool.not_true, Bool.false_eq_true, if_false] at h
  have h1 := congrArg Prod.fst h
  simp only at h1
  rw [← h1]
  constructor
  · have hq := sendLoop_no_quit t 0 list
    simp [List.count_cons, List.count_append, hq]
  · show ((Event.connect :: (sendLoop t 0 list).1) ++ [Event.quit]).getLast? = some Event.quit
    exact List.getLast?_concat _

/-- Witness for C4: a two-recipient run where both sends fail; the trace
still ends with a single `quit`. -/
theorem C4_session_closed_once_witness :
    (send_file ⟨some "s@x.com", some "pw"⟩
        ⟨true, fun _ => none, fun _ => some "boom", true⟩
        ["r1@x.com", "r2@x.com"]).1.count Event.quit = 1 ∧
      (send_file ⟨some "s@x.com", some "pw"⟩
        ⟨true, fun _ => none, fun _ => some "boom", true⟩
        ["r1@x.com", "r2@x.com"]).1.getLast? = some Event.quit :=
  C4_session_closed_once ⟨some "s@x.com", some "pw"⟩
    ⟨true, fun _ => none, fun _ => some "boom", true⟩
    ["r1@x.com", "r2@x.com"] _ _ rfl rfl rfl

/-- Counterexample to claim C1 as stated: `load_delivery_list` does not
collapse duplicates, so on a source listing the same address twice its
length is 2, while the number of distinct valid addresses is 1. -/
theorem C1_counterexample :
    load_delivery_list ["a@x.com", "a@x.com"] = ["a@x.com", "a@x.com"] ∧
      dedupKeepFirst ["a@x.com", "a@x.com"] = ["a@x.com"] ∧
      (load_delivery_list ["a@x.com", "a@x.com"]).length ≠
        (dedupKeepFirst ["a@x.com", "a@x.com"]).length :=
  ⟨by decide, by decide, by decide⟩

/-- Claim C1 (amended): `load_delivery_list` returns, in source order and
with duplicates retained, exactly the stripped lines that are non-blank,
not `#` comments and contain `@`, so its length is the number of such
valid lines (doubling the source doubles the result), not the number of
distinct addresses; `load_recipients` returns, whenever at least one line
qualifies, the stripped forms of exactly the lines that strip non-blank
and contain `@` — it does not skip `#` comments, so a comment line
containing `@` is kept — likewise in order with duplicates retained. -/
theorem C1_load_returns_valid_lines (lines lines2 : List String)
    (h : lines2.filter esLineValid ≠ []) :
    load_delivery_list lines = (lines.map pyStrip).filter fdLineValid ∧
      (load_delivery_list lines).length = (lines.map pyStrip).countP fdLineValid ∧
      (load_delivery_list (lines ++ lines)).length =
        2 * (load_delivery_list lines).length ∧
      load_recipients lines2 = Except.ok ((lines2.filter esLineValid).map pyStrip) ∧
      load_recipients ["# a@x.com", "b@y.com", "b@y.com"] =
        Except.ok ["# a@x.com", "b@y.com", "b@y.com"] := by
  have haux : ∀ (ls : List String) (acc : List String),
      ls.foldl
        (fun emails line =>
          let email := pyStrip line
          if fdLineValid email then emails ++ [email] else emails)
        acc = acc ++ (ls.map pyStrip).filter fdLineValid := by
    intro ls
    induction ls with
    | nil => intro acc; simp
    | cons l rest ih =>
      intro acc
      by_cases hv : fdLineValid (pyStrip l) <;>
        simp [List.filter_cons, hv, ih, List.append_assoc]
  have h1 : ∀ ls : List String,
      load_delivery_list ls = (ls.map pyStrip).filter fdLineValid := by
    intro ls
    simpa [load_delivery_list] using haux ls []
  refine ⟨h1 lines, ?_, ?_, ?_, rfl⟩
  · rw [h1 lines]
    exact (List.countP_eq_length_filter _ _).symm
  · rw [h1 (lines ++ lines), h1 lines, List.map_append, List.filter_append,
      List.length_append, Nat.two_mul]
  · have hne : (lines2.filter esLineValid).map pyStrip ≠ [] := by
      simpa using h
    simp [load_recipients, hne]

/-- Witness for C1 (amended): a source with a duplicate and an invalid
line, and a recipients file with a duplicate address. -/
theorem C1_load_returns_valid_lines_witness :
    load_delivery_list [" a@x.com ", "bad", "a@x.com"] =
        ((([" a@x.com ", "bad", "a@x.com"] : List String).map pyStrip).filter fdLineValid) ∧
      (load_delivery_list [" a@x.com ", "bad", "a@x.com"]).length =
        ((([" a@x.com ", "bad", "a@x.com"] : List String).map pyStrip).countP fdLineValid) ∧
      (load_delivery_list ([" a@x.com ", "bad", "a@x.com"] ++
          [" a@x.com ", "bad", "a@x.com"])).length =
        2 * (load_delivery_list [" a@x.com ", "bad", "a@x.com"]).length ∧
      load_recipients ["r@y.com", "r@y.com"] =
        Except.ok (((["r@y.com", "r@y.com"] : List String).filter esLineValid).map pyStrip) ∧
      load_recipients ["# a@x.com", "b@y.com", "b@y.com"] =
        Except.ok ["# a@x.com", "b@y.com", "b@y.com"] :=
  C1_load_returns_valid_lines [" a@x.com ", "bad", "a@x.com"] ["r@y.com", "r@y.com"]
    (by decide)

/-- Counterexample to claim C7 as stated: a two-recipient run with a
fully successful transport reads and encodes the attachment file twice,
not once — `create_email_message` re-opens the file inside the recipient
loop. -/
theorem C7_counterexample :
    ((send_file ⟨some "s@x.com", some "pw"⟩ ⟨true, fun _ => none, fun _ => none, true⟩
        ["r1@x.com", "r2@x.com"]).1.countP isFileRead) = 2 := by
  decide

/-- Claim C7 (amended): in every run whose session opens and whose
message construction succeeds for each recipient, the attachment file is
read and encoded once per recipient, inside the loop — the trace contains
exactly `len(delivery_list)` attachment reads, not one. -/
theorem C7_file_read_per_recipient (cfg : Config) (t : Transport) (list : List String)
    (evs : List Event) (r : Except SendError SendResults)
    (hcred : (truthy cfg.sender_email && truthy cfg.sender_password) = true)
    (hopen : t.openOk = true)
    (hcomp : ∀ k, k < list.length → t.composeErr k = none)
    (h : send_file cfg t list = (evs, r)) :
    evs.countP isFileRead = list.length := by
  unfold send_file at h
  rw [hcred, hopen] at h
  simp only [Bool.not_true, Bool.false_eq_true, if_false] at h
  have h1 := congrArg Prod.fst h
  simp only at h1
  rw [← h1]
  show (Event.connect :: (sendLoop t 0 list).1 ++ [Event.quit]).countP isFileRead = list.length
  have := sendLoop_fileReads t 0 list (by simpa using hcomp)
  simp [List.countP_cons, List.countP_append, isFileRead, this]

/-- Witness for C7 (amended): the two-recipient run again, counted
through the general theorem. -/
theorem C7_file_read_per_recipient_witness :
    (send_file ⟨some "s@x.com", some "pw"⟩ ⟨true, fun _ => none, fun _ => none, true⟩
        ["r1@x.com", "r2@x.com"]).1.countP isFileRead =
      (["r1@x.com", "r2@x.com"] : List String).length :=
  C7_file_read_per_recipient ⟨some "s@x.com", some "pw"⟩
    ⟨true, fun _ => none, fun _ => none, true⟩ ["r1@x.com", "r2@x.com"] _ _
    rfl rfl (fun _ _ => rfl) rfl

/-- Counterexample to claim C5 as stated: on a source whose lines are all
filtered out, `load_delivery_list` returns an empty list normally — the
load operation itself raises no `EmptySourceError`/`ValidationError`.
(The run still performs no transport operation, but only because `main`
separately checks the emptiness.) -/
theorem C5_counterexample :
    load_delivery_list_run ["# team list", "not-an-address", "   "] = Except.ok [] ∧
      fdMain ⟨true, ["# team list", "not-an-address", "   "],
          ⟨some "s@x.com", some "pw"⟩, ⟨true, fun _ => none, fun _ => none, true⟩⟩ =
        ([Event.readSource], 1, none) :=
  ⟨rfl, rfl⟩

/-- Claim C5 (amended): when zero valid addresses remain after filtering,
`email_sender.load_recipients` raises `ValueError`, while
`file_delivery_script.load_delivery_list` returns an empty list without
error and its caller `main` exits with code 1 after reading the source
and before any transport operation; neither program proceeds to a
zero-recipient send. -/
theorem C5_empty_source_aborts (env : Env) (lines : List String)
    (h1 : env.fileValid = true)
    (h2 : load_delivery_list env.sourceLines = [])
    (h3 : lines.filter esLineValid = []) :
    fdMain env = ([Event.readSource], 1, none) ∧
      load_recipients lines =
        Except.error "No valid email addresses found in recipients file" := by
  constructor
  · simp [fdMain, h1, h2]
  · simp [load_recipients, h3]

/-- Witness for C5 (amended): an all-comment source. -/
theorem C5_empty_source_aborts_witness :
    fdMain ⟨true, ["# a", "# b"], ⟨some "s@x.com", some "pw"⟩,
        ⟨true, fun _ => none, fun _ => none, true⟩⟩ = ([Event.readSource], 1, none) ∧
      load_recipients ["no-at-sign", "   "] =
        Except.error "No valid email addresses found in recipients file" :=
  C5_empty_source_aborts _ ["no-at-sign", "   "] rfl (by decide) (by decide)

/-- Counterexample to claim C8 as stated: in `email_sender.py`, a run
with one successful and one failed recipient exits with code 0 even
though the failure list is non-empty — `main` returns
`successful_sends > 0`, not `failed_sends == 0`. -/
theorem C8_counterexample :
    esMain ⟨true, ["r1@x.com", "r2@x.com"], true, ["f.txt"],
        fun i => if i = 0 then ESOutcome.sent else ESOutcome.sendFailed⟩ = 0 ∧
      (esLoop ⟨true, ["r1@x.com", "r2@x.com"], true, ["f.txt"],
          fun i => if i = 0 then ESOutcome.sent else ESOutcome.sendFailed⟩ 0
        ["r1@x.com", "r2@x.com"]).2 = 1 :=
  ⟨rfl, rfl⟩

/-- Claim C8 (amended): `file_delivery_script.py`'s command surface exits
0 iff the produced report's failure list is empty, and exits non-zero
whenever no report is produced (pre-send validation failures included);
`email_sender.py`'s command surface instead exits 0 iff at least one
send succeeded, so per-recipient failures there do not force a non-zero
exit. -/
theorem C8_exit_codes (env env2 : Env) (esenv : ESEnv) (evs evs2 : List Event)
    (code code2 : Nat) (res : SendResults) (recips : List String)
    (h1 : fdMain env = (evs, code, some res))
    (h6 : fdMain env2 = (evs2, code2, none))
    (h2 : esenv.configValid = true)
    (h3 : load_recipients esenv.recipientLines = Except.ok recips)
    (h4 : esenv.folderExists = true)
    (h5 : esenv.files ≠ []) :
    (code = 0 ↔ res.failed = []) ∧ code2 = 1 ∧
      (esMain esenv = 0 ↔ 0 < (esLoop esenv 0 recips).1) := by
  refine ⟨?_, ?_, ?_⟩
  · unfold fdMain at h1
    by_cases hv : env.fileValid = false
    · simp [hv] at h1
    · rw [if_neg hv] at h1
      dsimp only at h1
      by_cases hE : load_delivery_list env.sourceLines = []
      · simp [hE] at h1
      · rw [if_neg hE] at h1
        rcases hsf : send_file env.cfg env.transport (load_delivery_list env.sourceLines)
          with ⟨evs2, r2⟩
        rw [hsf] at h1
        cases r2 with
        | ok res2 =>
          simp only [Prod.mk.injEq] at h1
          obtain ⟨-, hcode, hres⟩ := h1
          have hres2 : res2 = res := Option.some.inj hres
          rw [← hcode, ← hres2]
          by_cases hf : res2.failed = [] <;> simp [hf]
        | error e => simp at h1
  · unfold fdMain at h6
    by_cases hv : env2.fileValid = false
    · rw [if_pos hv] at h6
      simp only [Prod.mk.injEq] at h6
      exact h6.2.1.symm
    · rw [if_neg hv] at h6
      dsimp only at h6
      by_cases hE : load_delivery_list env2.sourceLines = []
      · rw [if_pos hE] at h6
        simp only [Prod.mk.injEq] at h6
        exact h6.2.1.symm
      · rw [if_neg hE] at h6
        rcases hsf : send_file env2.cfg env2.transport (load_delivery_list env2.sourceLines)
          with ⟨evs3, r3⟩
        rw [hsf] at h6
        cases r3 with
        | ok res3 => simp at h6
        | error e =>
          simp only [Prod.mk.injEq] at h6
          exact h6.2.1.symm
  · unfold esMain
    rw [h2, h3, h4]
    simp only [Bool.true_eq_false, if_false]
    rw [if_neg h5]
    by_cases hpos : 0 < (esLoop esenv 0 recips).1 <;> simp [hpos]

/-- Witness for C8 (amended): a fully successful one-recipient run of
`file_delivery_script`, a validation-failure run of the same script, and
a one-success one-failure run of `email_sender`. -/
theorem C8_exit_codes_witness :
    ((0 : Nat) = 0 ↔ (SendResults.mk ["a@x.com"] [] 1).failed = []) ∧ (1 : Nat) = 1 ∧
      (esMain ⟨true, ["r1@x.com", "r2@x.com"], true, ["f.txt"],
          fun i => if i = 0 then ESOutcome.sent else ESOutcome.sendFailed⟩ = 0 ↔
        0 < (esLoop ⟨true, ["r1@x.com", "r2@x.com"], true, ["f.txt"],
            fun i => if i = 0 then ESOutcome.sent else ESOutcome.sendFailed⟩ 0
          ["r1@x.com", "r2@x.com"]).1) :=
  C8_exit_codes
    ⟨true, [" a@x.com "], ⟨some "s@x.com", some "pw"⟩,
      ⟨true, fun _ => none, fun _ => none, true⟩⟩
    ⟨false, ["a@x.com"], ⟨some "s@x.com", some "pw"⟩,
      ⟨true, fun _ => none, fun _ => none, true⟩⟩
    ⟨true, ["r1@x.com", "r2@x.com"], true, ["f.txt"],
      fun i => if i = 0 then ESOutcome.sent else ESOutcome.sendFailed⟩
    _ _ _ _ _ _ rfl rfl rfl rfl rfl (by decide)

/-! ### Lemmas about the format scanner -/

end FileDelivery
